import Mathlib

/-!
Verification of the report aggregation and rendering engine of BugForgeX
(`src/SecureChain/src/report/generator.rs`).

Numeric `f64` fields of the source are modelled as rationals (`Rat`): every
value these fields can hold in the program originates from a JSON input or a
literal, hence is a finite decimal.  `usize` fields are `Nat`.  `HashMap` is
modelled as an insertion-ordered association list, `HashSet` as a list with
membership; `DateTime<Utc>` is modelled as the textual form of the instant.
-/

/-- Modelled from the spec: the vulnerability category enumeration of
`report/vulnerability.rs`, a file that is not part of the visible source.
The spec fixes four named classes (reentrancy, access-control,
integer-overflow, unhandled-exceptions) and an open bucket of further
variants; `Other label` stands for any further variant, `label` being that
variant name as printed by the derived `Debug` formatter. -/
inductive VulnerabilityCategory where
  | Reentrancy : VulnerabilityCategory
  | AccessControl : VulnerabilityCategory
  | IntegerOverflow : VulnerabilityCategory
  | UnhandledExceptions : VulnerabilityCategory
  | Other : String → VulnerabilityCategory
deriving DecidableEq

/-- Models `format!("\x7b:?\x7d", category)`, the `Debug` rendering of a
category used as a key by the generator. -/
def catKey : VulnerabilityCategory → String
  | .Reentrancy => "Reentrancy"
  | .AccessControl => "AccessControl"
  | .IntegerOverflow => "IntegerOverflow"
  | .UnhandledExceptions => "UnhandledExceptions"
  | .Other label => label

/-- In the Rust program distinct enum variants always print distinct `Debug`
labels.  A list of categories is key-faithful when equal keys imply equal
categories; this is automatically true of any list of real program
categories and only rules out artefacts of the open `Other` model. -/
def KeyFaithful (L : List VulnerabilityCategory) : Prop :=
  ∀ c ∈ L, ∀ d ∈ L, catKey c = catKey d → c = d

instance (L : List VulnerabilityCategory) : Decidable (KeyFaithful L) := by
  unfold KeyFaithful; infer_instance

/-- Modelled from the spec: the `Vulnerability` record of
`report/vulnerability.rs` (not part of the visible source): identifier,
title, description, category, severity string, confidence score, tool,
file path, optional line number, optional code excerpt, optional
remediation text, reference list. -/
structure Vulnerability where
  id : String
  title : String
  description : String
  category : VulnerabilityCategory
  severity : String
  confidence : Rat
  tool : String
  file_path : String
  line_number : Option Nat
  code_snippet : Option String
  recommendation : Option String
  references : List String
deriving DecidableEq

/-- Modelled from the spec: the aggregate metrics record of
`core/analyzer.rs` (not part of the visible source); only the fields the
generator reads are included. -/
structure AnalysisMetrics where
  lines_of_code : Nat
  functions_analyzed : Nat
  complexity_score : Rat
  security_score : Rat
deriving DecidableEq

/-- Modelled from the spec: the analysis summary record of
`core/analyzer.rs` (not part of the visible source). -/
structure AnalysisSummary where
  tools_used : List String
  analysis_duration : Rat
deriving DecidableEq

/-- Modelled from the spec: the `AnalysisResults` input record of
`core/analyzer.rs` (not part of the visible source). -/
structure AnalysisResults where
  contract_name : String
  vulnerabilities : List Vulnerability
  recommendations : List String
  metrics : AnalysisMetrics
  analysis_summary : AnalysisSummary
deriving DecidableEq

structure ReportMetadata where
  report_id : String
  generated_at : String
  version : String
  contract_name : String
  analysis_tools : List String
  report_type : String
deriving DecidableEq

structure ExecutiveSummary where
  overall_risk_level : String
  total_vulnerabilities : Nat
  critical_findings : Nat
  high_risk_findings : Nat
  medium_risk_findings : Nat
  low_risk_findings : Nat
  security_score : Rat
  key_findings : List String
  recommendations_summary : List String
deriving DecidableEq

structure VulnerabilityAnalysis where
  vulnerabilities : List Vulnerability
  category_breakdown : List (String × Nat)
  severity_distribution : List (String × Nat)
  tool_findings : List (String × Nat)
deriving DecidableEq

structure Recommendation where
  id : String
  title : String
  description : String
  priority : String
  effort : String
  impact : String
  related_vulnerabilities : List String
deriving DecidableEq

structure CoverageReport where
  lines_analyzed : Nat
  functions_analyzed : Nat
  coverage_percentage : Rat
  uncovered_areas : List String
deriving DecidableEq

structure TechnicalDetails where
  analysis_metrics : AnalysisMetrics
  coverage_report : CoverageReport
  tool_configurations : List (String × String)
  analysis_duration : Rat
deriving DecidableEq

structure Appendix where
  title : String
  content : String
  appendix_type : String
deriving DecidableEq

structure ComprehensiveReport where
  metadata : ReportMetadata
  executive_summary : ExecutiveSummary
  vulnerability_analysis : VulnerabilityAnalysis
  recommendations : List Recommendation
  technical_details : TechnicalDetails
  appendices : List Appendix
deriving DecidableEq

/-- Models `*map.entry(k).or_insert(0) += 1` on a `HashMap<String, usize>`
represented as an association list without duplicate keys. -/
def bump : List (String × Nat) → String → List (String × Nat)
  | [], k => [(k, 1)]
  | (k', v) :: rest, k =>
      if k' = k then (k', v + 1) :: rest else (k', v) :: bump rest k

/-- Models `map.get(k).copied().unwrap_or(0)`. -/
def getCount : List (String × Nat) → String → Nat
  | [], _ => 0
  | (k', v) :: rest, k => if k' = k then v else getCount rest k

/-- Sum of all counts stored in a count map. -/
def sumCounts (m : List (String × Nat)) : Nat := (m.map Prod.snd).sum

/-- One tallying pass of `create_vulnerability_analysis`: the source walks
the findings once and bumps each of the three maps with the projected key;
the per-map effect is this fold. -/
def tally (key : Vulnerability → String) (vulns : List Vulnerability) :
    List (String × Nat) :=
  vulns.foldl (fun m v => bump m (key v)) []

/-- Embeds `create_vulnerability_analysis` (generator.rs lines 215-238). -/
def create_vulnerability_analysis (vulns : List Vulnerability) :
    VulnerabilityAnalysis :=
  { vulnerabilities := vulns
    category_breakdown := tally (fun v => catKey v.category) vulns
    severity_distribution := tally (fun v => v.severity) vulns
    tool_findings := tally (fun v => v.tool) vulns }

/-- Embeds `extract_key_findings` (generator.rs lines 376-405). -/
def extract_key_findings (vulns : List Vulnerability) : List String :=
  let critical_findings := vulns.filter (fun v => v.severity == "Critical")
  let high_findings := vulns.filter (fun v => v.severity == "High")
  let key_findings :=
    (critical_findings.take 3).map (fun v => "🔴 Critical: " ++ v.title) ++
    (high_findings.take 2).map (fun v => "🟠 High: " ++ v.title)
  if key_findings.isEmpty then
    ["No critical or high-severity vulnerabilities found."]
  else
    key_findings

/-- Embeds `create_executive_summary` (generator.rs lines 184-212). -/
def create_executive_summary (results : AnalysisResults)
    (va : VulnerabilityAnalysis) : ExecutiveSummary :=
  let critical_findings := getCount va.severity_distribution "Critical"
  let high_risk_findings := getCount va.severity_distribution "High"
  let medium_risk_findings := getCount va.severity_distribution "Medium"
  let low_risk_findings := getCount va.severity_distribution "Low"
  let overall_risk_level :=
    if critical_findings > 0 then "Critical"
    else if high_risk_findings > 0 then "High"
    else if medium_risk_findings > 0 then "Medium"
    else if low_risk_findings > 0 then "Low"
    else "Minimal"
  { overall_risk_level := overall_risk_level
    total_vulnerabilities := results.vulnerabilities.length
    critical_findings := critical_findings
    high_risk_findings := high_risk_findings
    medium_risk_findings := medium_risk_findings
    low_risk_findings := low_risk_findings
    security_score := results.metrics.security_score
    key_findings := extract_key_findings results.vulnerabilities
    recommendations_summary := results.recommendations.take 3 }

/-- Pads a number to at least three digits, models `format!("\x7b:03\x7d", n)`
for the values used by the generator. -/
def pad3 (n : Nat) : String :=
  if n < 10 then "00" ++ toString n
  else if n < 100 then "0" ++ toString n
  else toString n

/-- Embeds `create_category_recommendation` (generator.rs lines 274-328). -/
def create_category_recommendation (category : VulnerabilityCategory)
    (vulnerabilities : List Vulnerability) : Recommendation :=
  let related_vulns :=
    (vulnerabilities.filter (fun v => v.category == category)).map (fun v => v.id)
  match category with
  | .Reentrancy =>
      { id := "REC-001"
        title := "Implement Reentrancy Protection"
        description := "Use reentrancy guards or checks-effects-interactions pattern to prevent reentrancy attacks."
        priority := "High", effort := "Medium", impact := "High"
        related_vulnerabilities := related_vulns }
  | .AccessControl =>
      { id := "REC-002"
        title := "Strengthen Access Control"
        description := "Implement proper access control mechanisms using role-based permissions."
        priority := "High", effort := "High", impact := "High"
        related_vulnerabilities := related_vulns }
  | .IntegerOverflow =>
      { id := "REC-003"
        title := "Use Safe Math Operations"
        description := "Implement SafeMath library or use Solidity 0.8+ built-in overflow protection."
        priority := "Medium", effort := "Low", impact := "Medium"
        related_vulnerabilities := related_vulns }
  | .UnhandledExceptions =>
      { id := "REC-004"
        title := "Improve Error Handling"
        description := "Implement proper error handling for all external calls and operations."
        priority := "Medium", effort := "Medium", impact := "Medium"
        related_vulnerabilities := related_vulns }
  | .Other label =>
      { id := "REC-999"
        title := "Address " ++ label ++ " Issues"
        description := "Review and address all " ++ label ++ " related vulnerabilities."
        priority := "Medium", effort := "Medium", impact := "Medium"
        related_vulnerabilities := related_vulns }

/-- The category loop of `create_recommendations` (generator.rs lines
245-255): walk the findings, keep a set of already processed `Debug` keys,
and emit one category recommendation at each first occurrence. -/
def recCategoryLoop (allVulns : List Vulnerability) :
    List String → List Vulnerability → List Recommendation
  | _, [] => []
  | processed, v :: rest =>
      if catKey v.category ∈ processed then
        recCategoryLoop allVulns processed rest
      else
        create_category_recommendation v.category allVulns ::
          recCategoryLoop allVulns (catKey v.category :: processed) rest

/-- Embeds `create_recommendations` (generator.rs lines 241-271). -/
def create_recommendations (vulnerabilities : List Vulnerability)
    (basic_recommendations : List String) : List Recommendation :=
  recCategoryLoop vulnerabilities [] vulnerabilities ++
    basic_recommendations.enum.map (fun p =>
      { id := "REC-" ++ pad3 (p.1 + 100)
        title := "General Recommendation " ++ toString (p.1 + 1)
        description := p.2
        priority := "Medium", effort := "Medium", impact := "Medium"
        related_vulnerabilities := [] })

/-- Version string baked into report metadata; the package manifest is not
part of the visible source, the program banner prints version 0.1.0. -/
def cargoPkgVersion : String := "0.1.0"

/-- Embeds `create_report_metadata` (generator.rs lines 172-181); the fresh
UUID and the capture of the current instant are passed in as parameters
`reportId` and `nowTs`, following the injectable-provider reading of the
spec for the two non-deterministic fields. -/
def create_report_metadata (results : AnalysisResults)
    (reportId nowTs : String) : ReportMetadata :=
  { report_id := reportId
    generated_at := nowTs
    version := cargoPkgVersion
    contract_name := results.contract_name
    analysis_tools := results.analysis_summary.tools_used
    report_type := "Security Audit Report" }

/-- Renders a rational with two fractional decimal digits, models
`format!("\x7b:.2\x7d", x)` on the finite values the program handles. -/
def fmt2 (q : Rat) : String :=
  let n : Int := round (q * 100)
  let sign := if n < 0 then "-" else ""
  let a := n.natAbs
  let frac := a % 100
  sign ++ toString (a / 100) ++ "." ++
    (if frac < 10 then "0" ++ toString frac else toString frac)

/-- Embeds `create_technical_details` (generator.rs lines 331-349). -/
def create_technical_details (metrics : AnalysisMetrics) (duration : Rat) :
    TechnicalDetails :=
  { analysis_metrics := metrics
    coverage_report :=
      { lines_analyzed := metrics.lines_of_code
        functions_analyzed := metrics.functions_analyzed
        coverage_percentage := 85
        uncovered_areas := ["External library interactions"] }
    tool_configurations :=
      [("slither", "Default configuration"), ("mythril", "Deep analysis mode")]
    analysis_duration := duration }

/-- Embeds `create_appendices` (generator.rs lines 352-373). -/
def create_appendices (results : AnalysisResults) : List Appendix :=
  [ { title := "Tool Configurations"
      content := "Analysis performed using: " ++
        String.intercalate ", " results.analysis_summary.tools_used
      appendix_type := "configuration" }
  , { title := "Analysis Metrics"
      content := "Security Score: " ++ fmt2 results.metrics.security_score ++
        "\nComplexity Score: " ++ fmt2 results.metrics.complexity_score ++
        "\nLines of Code: " ++ toString results.metrics.lines_of_code
      appendix_type := "metrics" } ]

/-- Embeds `create_comprehensive_report` (generator.rs lines 138-169). -/
def create_comprehensive_report (results : AnalysisResults)
    (include_summary : Bool) (reportId nowTs : String) : ComprehensiveReport :=
  let metadata := create_report_metadata results reportId nowTs
  let vulnerability_analysis :=
    create_vulnerability_analysis results.vulnerabilities
  let recommendations :=
    create_recommendations results.vulnerabilities results.recommendations
  let technical_details :=
    create_technical_details results.metrics
      results.analysis_summary.analysis_duration
  let appendices := create_appendices results
  let executive_summary :=
    if include_summary then
      create_executive_summary results vulnerability_analysis
    else
      { overall_risk_level := "Not Calculated"
        total_vulnerabilities := results.vulnerabilities.length
        critical_findings := 0
        high_risk_findings := 0
        medium_risk_findings := 0
        low_risk_findings := 0
        security_score := results.metrics.security_score
        key_findings := []
        recommendations_summary := [] }
  { metadata := metadata
    executive_summary := executive_summary
    vulnerability_analysis := vulnerability_analysis
    recommendations := recommendations
    technical_details := technical_details
    appendices := appendices }

/-- The five severity display groups built by the loop in
`generate_markdown_report` (generator.rs lines 443-457). -/
structure SeverityGroups where
  critical : List Vulnerability
  high : List Vulnerability
  medium : List Vulnerability
  low : List Vulnerability
  informational : List Vulnerability
deriving DecidableEq

/-- Embeds the grouping loop of `generate_markdown_report` (lines 449-457):
each finding is appended to the vector selected by matching its severity
string, unrecognized severities going to the informational group. -/
def splitBySeverity : List Vulnerability → SeverityGroups
  | [] => ⟨[], [], [], [], []⟩
  | v :: rest =>
      let g := splitBySeverity rest
      match v.severity with
      | "Critical" => { g with critical := v :: g.critical }
      | "High" => { g with high := v :: g.high }
      | "Medium" => { g with medium := v :: g.medium }
      | "Low" => { g with low := v :: g.low }
      | _ => { g with informational := v :: g.informational }

/-- Replaces every occurrence of one character by a replacement string. -/
def replaceCharAux (c : Char) (rep : List Char) : List Char → List Char
  | [] => []
  | d :: ds =>
      if d = c then rep ++ replaceCharAux c rep ds
      else d :: replaceCharAux c rep ds

/-- Single-character replacement on strings. -/
def replaceChar (c : Char) (rep : String) (s : String) : String :=
  ⟨replaceCharAux c rep.data s.data⟩

/-- Models `generated_at.format("%Y-%m-%d %H:%M:%S UTC")`: the instant is
stored as its `YYYY-MM-DDTHH:MM:SSZ` text, the display form replaces the
date-time separator by a space, drops the zone suffix and appends
`" UTC"`. -/
def formatTimestamp (ts : String) : String :=
  replaceChar 'Z' "" (replaceChar 'T' " " ts) ++ " UTC"

/-- Embeds `add_vulnerability_section` (generator.rs lines 495-535); the
`&mut String` out-parameter becomes an explicit argument and return. -/
def add_vulnerability_section (markdown : String) (severity : String)
    (vulnerabilities : List Vulnerability) (icon : String) : String :=
  if vulnerabilities.isEmpty then markdown
  else
    markdown ++ "### " ++ icon ++ " " ++ severity ++ " Vulnerabilities\n\n" ++
      String.join (vulnerabilities.enum.map (fun p =>
        let v := p.2
        "#### " ++ severity.front.toString ++ "." ++ toString (p.1 + 1) ++
          " " ++ v.title ++ "\n\n" ++
        "**Description:** " ++ v.description ++ "\n\n" ++
        "**File:** " ++ v.file_path ++ "\n" ++
        (match v.line_number with
         | some line => "**Line:** " ++ toString line ++ "\n"
         | none => "") ++
        "**Tool:** " ++ v.tool ++ "\n" ++
        "**Confidence:** " ++ fmt2 v.confidence ++ "\n\n" ++
        (match v.code_snippet with
         | some code => "**Code Snippet:**\n```solidity\n" ++ code ++ "\n```\n\n"
         | none => "") ++
        (match v.recommendation with
         | some rec => "**Recommendation:** " ++ rec ++ "\n\n"
         | none => "") ++
        (if v.references.isEmpty then ""
         else "**References:**\n" ++
           String.join (v.references.map (fun r => "- " ++ r ++ "\n")) ++ "\n") ++
        "---\n\n"))

/-- Embeds `generate_markdown_report` (generator.rs lines 408-492). -/
def generate_markdown_report (report : ComprehensiveReport) : String :=
  let md0 :=
    "# Security Audit Report: " ++ report.metadata.contract_name ++ "\n\n" ++
    "**Report ID:** " ++ report.metadata.report_id ++ "\n" ++
    "**Generated:** " ++ formatTimestamp report.metadata.generated_at ++ "\n" ++
    "**Version:** " ++ report.metadata.version ++ "\n" ++
    "**Tools Used:** " ++
      String.intercalate ", " report.metadata.analysis_tools ++ "\n\n" ++
    "## Executive Summary\n\n" ++
    "**Overall Risk Level:** " ++
      report.executive_summary.overall_risk_level ++ "\n" ++
    "**Security Score:** " ++
      fmt2 report.executive_summary.security_score ++ "/100\n" ++
    "**Total Vulnerabilities:** " ++
      toString report.executive_summary.total_vulnerabilities ++ "\n\n" ++
    "### Severity Distribution\n\n" ++
    "- 🔴 Critical: " ++
      toString report.executive_summary.critical_findings ++ "\n" ++
    "- 🟠 High: " ++
      toString report.executive_summary.high_risk_findings ++ "\n" ++
    "- 🟡 Medium: " ++
      toString report.executive_summary.medium_risk_findings ++ "\n" ++
    "- 🟢 Low: " ++
      toString report.executive_summary.low_risk_findings ++ "\n\n"
  let md1 :=
    if report.executive_summary.key_findings.isEmpty then md0
    else
      md0 ++ "### Key Findings\n\n" ++
        String.join (report.executive_summary.key_findings.map
          (fun f => "- " ++ f ++ "\n")) ++ "\n"
  let md2 := md1 ++ "## Vulnerability Analysis\n\n"
  let g := splitBySeverity report.vulnerability_analysis.vulnerabilities
  let md3 := add_vulnerability_section md2 "Critical" g.critical "🔴"
  let md4 := add_vulnerability_section md3 "High" g.high "🟠"
  let md5 := add_vulnerability_section md4 "Medium" g.medium "🟡"
  let md6 := add_vulnerability_section md5 "Low" g.low "🟢"
  let md7 := add_vulnerability_section md6 "Informational" g.informational "🔵"
  let md8 :=
    md7 ++ "## Recommendations\n\n" ++
      String.join (report.recommendations.enum.map (fun p =>
        "### " ++ toString (p.1 + 1) ++ ". " ++ p.2.title ++ "\n\n" ++
        "**Priority:** " ++ p.2.priority ++ "\n" ++
        "**Effort:** " ++ p.2.effort ++ "\n" ++
        "**Impact:** " ++ p.2.impact ++ "\n\n" ++
        p.2.description ++ "\n\n"))
  let md9 :=
    md8 ++ "## Technical Details\n\n" ++
    "**Analysis Duration:** " ++
      fmt2 report.technical_details.analysis_duration ++ " seconds\n" ++
    "**Lines of Code:** " ++
      toString report.technical_details.analysis_metrics.lines_of_code ++ "\n" ++
    "**Functions Analyzed:** " ++
      toString report.technical_details.analysis_metrics.functions_analyzed ++
      "\n" ++
    "**Complexity Score:** " ++
      fmt2 report.technical_details.analysis_metrics.complexity_score ++ "\n\n"
  if report.appendices.isEmpty then md9
  else
    md9 ++ "## Appendices\n\n" ++
      String.join (report.appendices.map (fun a =>
        "### " ++ a.title ++ "\n\n" ++ a.content ++ "\n\n"))

/-- The fixed styled document shell of `generate_html_report` (generator.rs
lines 542-563), with the two interpolation holes (page title and body) as
parameters; CSS braces appear verbatim as in the source format string. -/
def htmlShell (title body : String) : String :=
  "<!DOCTYPE html>\n<html>\n<head>\n    <title>Security Audit Report - " ++
  title ++
  "</title>\n    <style>\n        body \x7b font-family: Arial, sans-serif; margin: 40px; \x7d\n        h1 \x7b color: #333; \x7d\n        h2 \x7b color: #666; border-bottom: 2px solid #eee; \x7d\n        h3 \x7b color: #888; \x7d\n        .severity-critical \x7b color: #dc3545; \x7d\n        .severity-high \x7b color: #fd7e14; \x7d\n        .severity-medium \x7b color: #ffc107; \x7d\n        .severity-low \x7b color: #28a745; \x7d\n        .code \x7b background-color: #f8f9fa; padding: 10px; border-radius: 4px; \x7d\n        .vulnerability \x7b border: 1px solid #ddd; padding: 15px; margin: 10px 0; border-radius: 5px; \x7d\n    </style>\n</head>\n<body>\n    <pre>" ++
  body ++
  "</pre>\n</body>\n</html>"

/-- Embeds `generate_html_report` (generator.rs lines 538-569). -/
def generate_html_report (report : ComprehensiveReport) : String :=
  htmlShell report.metadata.contract_name (generate_markdown_report report)

/-- Embeds `generate_pdf_report` (generator.rs lines 578-582): the
placeholder implementation returns the HTML rendering unchanged. -/
def generate_pdf_report (report : ComprehensiveReport) : String :=
  generate_html_report report

/-- JSON value tree, the intermediate form of `serde_json`. -/
inductive Json where
  | null : Json
  | str : String → Json
  | num : Rat → Json
  | arr : List Json → Json
  | obj : List (String × Json) → Json

/-- Escapes a string for inclusion in a JSON text literal. -/
def jsonEscape (s : String) : String :=
  replaceChar '\n' "\\n"
    (replaceChar '\x22' "\\\x22" (replaceChar '\\' "\\\\" s))

mutual

/-- Renders a JSON tree to text; models the concrete-syntax layer of
`serde_json::to_string_pretty` up to whitespace. -/
def jsonRender : Json → String
  | .null => "null"
  | .str s => "\"" ++ jsonEscape s ++ "\""
  | .num q => toString q
  | .arr js => "[" ++ jsonRenderArr js ++ "]"
  | .obj fs => "\x7b" ++ jsonRenderObj fs ++ "\x7d"

/-- Renders the element list of a JSON array. -/
def jsonRenderArr : List Json → String
  | [] => ""
  | [j] => jsonRender j
  | j :: js => jsonRender j ++ "," ++ jsonRenderArr js

/-- Renders the field list of a JSON object. -/
def jsonRenderObj : List (String × Json) → String
  | [] => ""
  | [(k, j)] => "\"" ++ jsonEscape k ++ "\":" ++ jsonRender j
  | (k, j) :: fs =>
      "\"" ++ jsonEscape k ++ "\":" ++ jsonRender j ++ "," ++ jsonRenderObj fs

end

/-- Field lookup in a JSON object, models serde field matching by name. -/
def jlookup (k : String) : List (String × Json) → Option Json
  | [] => none
  | (k', j) :: rest => if k' = k then some j else jlookup k rest

/-- Serialization of an optional count, models serde on `Option<usize>`. -/
def encOptNat : Option Nat → Json
  | none => .null
  | some n => .num n

/-- Serialization of an optional string, models serde on `Option<String>`. -/
def encOptStr : Option String → Json
  | none => .null
  | some s => .str s

/-- Serialization of a string list. -/
def encStrList (l : List String) : Json := .arr (l.map Json.str)

/-- Serialization of a `HashMap<String, usize>` in stored entry order. -/
def encCountMap (m : List (String × Nat)) : Json :=
  .obj (m.map (fun p => (p.1, Json.num p.2)))

/-- Serialization of a `HashMap<String, String>` in stored entry order. -/
def encStrMap (m : List (String × String)) : Json :=
  .obj (m.map (fun p => (p.1, Json.str p.2)))

/-- Models the derived `Serialize` of the field-less category enumeration:
the variant name as a JSON string. -/
def catToJson (c : VulnerabilityCategory) : Json := .str (catKey c)

/-- Models the derived `Serialize` of `Vulnerability`: all fields, in
declaration order, keyed by field name. -/
def vulnToJson (v : Vulnerability) : Json :=
  .obj [ ("id", .str v.id)
       , ("title", .str v.title)
       , ("description", .str v.description)
       , ("category", catToJson v.category)
       , ("severity", .str v.severity)
       , ("confidence", .num v.confidence)
       , ("tool", .str v.tool)
       , ("file_path", .str v.file_path)
       , ("line_number", encOptNat v.line_number)
       , ("code_snippet", encOptStr v.code_snippet)
       , ("recommendation", encOptStr v.recommendation)
       , ("references", encStrList v.references) ]

/-- Models the derived `Serialize` of `ReportMetadata`. -/
def metadataToJson (m : ReportMetadata) : Json :=
  .obj [ ("report_id", .str m.report_id)
       , ("generated_at", .str m.generated_at)
       , ("version", .str m.version)
       , ("contract_name", .str m.contract_name)
       , ("analysis_tools", encStrList m.analysis_tools)
       , ("report_type", .str m.report_type) ]

/-- Models the derived `Serialize` of `ExecutiveSummary`. -/
def execSummaryToJson (e : ExecutiveSummary) : Json :=
  .obj [ ("overall_risk_level", .str e.overall_risk_level)
       , ("total_vulnerabilities", .num e.total_vulnerabilities)
       , ("critical_findings", .num e.critical_findings)
       , ("high_risk_findings", .num e.high_risk_findings)
       , ("medium_risk_findings", .num e.medium_risk_findings)
       , ("low_risk_findings", .num e.low_risk_findings)
       , ("security_score", .num e.security_score)
       , ("key_findings", encStrList e.key_findings)
       , ("recommendations_summary", encStrList e.recommendations_summary) ]

/-- Models the derived `Serialize` of `VulnerabilityAnalysis`. -/
def vulnAnalysisToJson (va : VulnerabilityAnalysis) : Json :=
  .obj [ ("vulnerabilities", .arr (va.vulnerabilities.map vulnToJson))
       , ("category_breakdown", encCountMap va.category_breakdown)
       , ("severity_distribution", encCountMap va.severity_distribution)
       , ("tool_findings", encCountMap va.tool_findings) ]

/-- Models the derived `Serialize` of `Recommendation`. -/
def recToJson (r : Recommendation) : Json :=
  .obj [ ("id", .str r.id)
       , ("title", .str r.title)
       , ("description", .str r.description)
       , ("priority", .str r.priority)
       , ("effort", .str r.effort)
       , ("impact", .str r.impact)
       , ("related_vulnerabilities", encStrList r.related_vulnerabilities) ]

/-- Models the derived `Serialize` of `AnalysisMetrics`. -/
def metricsToJson (m : AnalysisMetrics) : Json :=
  .obj [ ("lines_of_code", .num m.lines_of_code)
       , ("functions_analyzed", .num m.functions_analyzed)
       , ("complexity_score", .num m.complexity_score)
       , ("security_score", .num m.security_score) ]

/-- Models the derived `Serialize` of `CoverageReport`. -/
def coverageToJson (c : CoverageReport) : Json :=
  .obj [ ("lines_analyzed", .num c.lines_analyzed)
       , ("functions_analyzed", .num c.functions_analyzed)
       , ("coverage_percentage", .num c.coverage_percentage)
       , ("uncovered_areas", encStrList c.uncovered_areas) ]

/-- Models the derived `Serialize` of `TechnicalDetails`. -/
def techToJson (t : TechnicalDetails) : Json :=
  .obj [ ("analysis_metrics", metricsToJson t.analysis_metrics)
       , ("coverage_report", coverageToJson t.coverage_report)
       , ("tool_configurations", encStrMap t.tool_configurations)
       , ("analysis_duration", .num t.analysis_duration) ]

/-- Models the derived `Serialize` of `Appendix`. -/
def appendixToJson (a : Appendix) : Json :=
  .obj [ ("title", .str a.title)
       , ("content", .str a.content)
       , ("appendix_type", .str a.appendix_type) ]

/-- Models the derived `Serialize` of `ComprehensiveReport`: every field of
the assembled document, none omitted. -/
def reportToJson (r : ComprehensiveReport) : Json :=
  .obj [ ("metadata", metadataToJson r.metadata)
       , ("executive_summary", execSummaryToJson r.executive_summary)
       , ("vulnerability_analysis", vulnAnalysisToJson r.vulnerability_analysis)
       , ("recommendations", .arr (r.recommendations.map recToJson))
       , ("technical_details", techToJson r.technical_details)
       , ("appendices", .arr (r.appendices.map appendixToJson)) ]

/-- Embeds `generate_json_report` (generator.rs lines 572-575): the
machine-readable rendering is the full serialization of the document. -/
def generate_json_report (report : ComprehensiveReport) : String :=
  jsonRender (reportToJson report)

/-- Embeds the format dispatch of `generate_comprehensive_report`
(generator.rs lines 102-122); loading the input from disk is the caller
I/O boundary, so the deserialized `AnalysisResults` is the parameter, and
the fresh report identifier and timestamp are injected. -/
def generate_comprehensive_report (results : AnalysisResults)
    (format : String) (include_summary : Bool) (reportId nowTs : String) :
    Except String String :=
  let report := create_comprehensive_report results include_summary reportId nowTs
  match format with
  | "markdown" => .ok (generate_markdown_report report)
  | "html" => .ok (generate_html_report report)
  | "json" => .ok (generate_json_report report)
  | "pdf" => .ok (generate_pdf_report report)
  | _ => .error ("Unsupported report format: " ++ format)

/-- Reads a JSON string. -/
def asStr : Json → Option String
  | .str s => some s
  | _ => none

/-- Reads a JSON number as a rational. -/
def asNum : Json → Option Rat
  | .num q => some q
  | _ => none

/-- Reads a JSON number as an unsigned machine integer. -/
def asNat : Json → Option Nat
  | .num q => if q.den = 1 ∧ 0 ≤ q.num then some q.num.toNat else none
  | _ => none

/-- Reads an optional unsigned integer (null or number). -/
def asOptNat : Json → Option (Option Nat)
  | .null => some none
  | .num q => (asNat (.num q)).map some
  | _ => none

/-- Reads an optional string (null or string). -/
def asOptStr : Json → Option (Option String)
  | .null => some none
  | .str s => some (some s)
  | _ => none

/-- Reads the elements of a JSON array with a given element decoder. -/
def decList (dec : Json → Option α) : List Json → Option (List α)
  | [] => some []
  | j :: js =>
      match dec j with
      | some a =>
          match decList dec js with
          | some as => some (a :: as)
          | none => none
      | none => none

/-- Reads a JSON array of strings. -/
def asStrList : Json → Option (List String)
  | .arr js => decList asStr js
  | _ => none

/-- Reads the entries of a serialized `HashMap<String, usize>`. -/
def decCountEntries : List (String × Json) → Option (List (String × Nat))
  | [] => some []
  | (k, j) :: rest =>
      match asNat j with
      | some n =>
          match decCountEntries rest with
          | some m => some ((k, n) :: m)
          | none => none
      | none => none

/-- Reads a serialized `HashMap<String, usize>`. -/
def asCountMap : Json → Option (List (String × Nat))
  | .obj fs => decCountEntries fs
  | _ => none

/-- Reads the entries of a serialized `HashMap<String, String>`. -/
def decStrEntries : List (String × Json) → Option (List (String × String))
  | [] => some []
  | (k, j) :: rest =>
      match asStr j with
      | some s =>
          match decStrEntries rest with
          | some m => some ((k, s) :: m)
          | none => none
      | none => none

/-- Reads a serialized `HashMap<String, String>`. -/
def asStrMap : Json → Option (List (String × String))
  | .obj fs => decStrEntries fs
  | _ => none

/-- Models the derived `Deserialize` of the category enumeration: the four
table variant names decode to their variants, any other variant name is one
of the further variants of the open bucket. -/
def catFromJson : Json → Option VulnerabilityCategory
  | .str s =>
      some (if s = "Reentrancy" then .Reentrancy
        else if s = "AccessControl" then .AccessControl
        else if s = "IntegerOverflow" then .IntegerOverflow
        else if s = "UnhandledExceptions" then .UnhandledExceptions
        else .Other s)
  | _ => none

/-- Models the derived `Deserialize` of `Vulnerability`. -/
def vulnFromJson : Json → Option Vulnerability
  | .obj fields => do
      let id ← jlookup "id" fields >>= asStr
      let title ← jlookup "title" fields >>= asStr
      let description ← jlookup "description" fields >>= asStr
      let category ← jlookup "category" fields >>= catFromJson
      let severity ← jlookup "severity" fields >>= asStr
      let confidence ← jlookup "confidence" fields >>= asNum
      let tool ← jlookup "tool" fields >>= asStr
      let file_path ← jlookup "file_path" fields >>= asStr
      let line_number ← jlookup "line_number" fields >>= asOptNat
      let code_snippet ← jlookup "code_snippet" fields >>= asOptStr
      let recommendation ← jlookup "recommendation" fields >>= asOptStr
      let references ← jlookup "references" fields >>= asStrList
      some ⟨id, title, description, category, severity, confidence, tool,
        file_path, line_number, code_snippet, recommendation, references⟩
  | _ => none

/-- Models the derived `Deserialize` of `ReportMetadata`. -/
def metadataFromJson : Json → Option ReportMetadata
  | .obj fields => do
      let report_id ← jlookup "report_id" fields >>= asStr
      let generated_at ← jlookup "generated_at" fields >>= asStr
      let version ← jlookup "version" fields >>= asStr
      let contract_name ← jlookup "contract_name" fields >>= asStr
      let analysis_tools ← jlookup "analysis_tools" fields >>= asStrList
      let report_type ← jlookup "report_type" fields >>= asStr
      some ⟨report_id, generated_at, version, contract_name, analysis_tools,
        report_type⟩
  | _ => none

/-- Models the derived `Deserialize` of `ExecutiveSummary`. -/
def execSummaryFromJson : Json → Option ExecutiveSummary
  | .obj fields => do
      let overall_risk_level ← jlookup "overall_risk_level" fields >>= asStr
      let total_vulnerabilities ←
        jlookup "total_vulnerabilities" fields >>= asNat
      let critical_findings ← jlookup "critical_findings" fields >>= asNat
      let high_risk_findings ← jlookup "high_risk_findings" fields >>= asNat
      let medium_risk_findings ←
        jlookup "medium_risk_findings" fields >>= asNat
      let low_risk_findings ← jlookup "low_risk_findings" fields >>= asNat
      let security_score ← jlookup "security_score" fields >>= asNum
      let key_findings ← jlookup "key_findings" fields >>= asStrList
      let recommendations_summary ←
        jlookup "recommendations_summary" fields >>= asStrList
      some ⟨overall_risk_level, total_vulnerabilities, critical_findings,
        high_risk_findings, medium_risk_findings, low_risk_findings,
        security_score, key_findings, recommendations_summary⟩
  | _ => none

/-- Models the derived `Deserialize` of `VulnerabilityAnalysis`. -/
def vulnAnalysisFromJson : Json → Option VulnerabilityAnalysis
  | .obj fields => do
      let vulnerabilities ←
        match jlookup "vulnerabilities" fields with
        | some (.arr js) => decList vulnFromJson js
        | _ => none
      let category_breakdown ←
        jlookup "category_breakdown" fields >>= asCountMap
      let severity_distribution ←
        jlookup "severity_distribution" fields >>= asCountMap
      let tool_findings ← jlookup "tool_findings" fields >>= asCountMap
      some ⟨vulnerabilities, category_breakdown, severity_distribution,
        tool_findings⟩
  | _ => none

/-- Models the derived `Deserialize` of `Recommendation`. -/
def recFromJson : Json → Option Recommendation
  | .obj fields => do
      let id ← jlookup "id" fields >>= asStr
      let title ← jlookup "title" fields >>= asStr
      let description ← jlookup "description" fields >>= asStr
      let priority ← jlookup "priority" fields >>= asStr
      let effort ← jlookup "effort" fields >>= asStr
      let impact ← jlookup "impact" fields >>= asStr
      let related_vulnerabilities ←
        jlookup "related_vulnerabilities" fields >>= asStrList
      some ⟨id, title, description, priority, effort, impact,
        related_vulnerabilities⟩
  | _ => none

/-- Models the derived `Deserialize` of `AnalysisMetrics`. -/
def metricsFromJson : Json → Option AnalysisMetrics
  | .obj fields => do
      let lines_of_code ← jlookup "lines_of_code" fields >>= asNat
      let functions_analyzed ← jlookup "functions_analyzed" fields >>= asNat
      let complexity_score ← jlookup "complexity_score" fields >>= asNum
      let security_score ← jlookup "security_score" fields >>= asNum
      some ⟨lines_of_code, functions_analyzed, complexity_score,
        security_score⟩
  | _ => none

/-- Models the derived `Deserialize` of `CoverageReport`. -/
def coverageFromJson : Json → Option CoverageReport
  | .obj fields => do
      let lines_analyzed ← jlookup "lines_analyzed" fields >>= asNat
      let functions_analyzed ← jlookup "functions_analyzed" fields >>= asNat
      let coverage_percentage ←
        jlookup "coverage_percentage" fields >>= asNum
      let uncovered_areas ← jlookup "uncovered_areas" fields >>= asStrList
      some ⟨lines_analyzed, functions_analyzed, coverage_percentage,
        uncovered_areas⟩
  | _ => none

/-- Models the derived `Deserialize` of `TechnicalDetails`. -/
def techFromJson : Json → Option TechnicalDetails
  | .obj fields => do
      let analysis_metrics ←
        jlookup "analysis_metrics" fields >>= metricsFromJson
      let coverage_report ←
        jlookup "coverage_report" fields >>= coverageFromJson
      let tool_configurations ←
        jlookup "tool_configurations" fields >>= asStrMap
      let analysis_duration ← jlookup "analysis_duration" fields >>= asNum
      some ⟨analysis_metrics, coverage_report, tool_configurations,
        analysis_duration⟩
  | _ => none

/-- Models the derived `Deserialize` of `Appendix`. -/
def appendixFromJson : Json → Option Appendix
  | .obj fields => do
      let title ← jlookup "title" fields >>= asStr
      let content ← jlookup "content" fields >>= asStr
      let appendix_type ← jlookup "appendix_type" fields >>= asStr
      some ⟨title, content, appendix_type⟩
  | _ => none

/-- Models the derived `Deserialize` of `ComprehensiveReport`. -/
def reportFromJson : Json → Option ComprehensiveReport
  | .obj fields => do
      let metadata ← jlookup "metadata" fields >>= metadataFromJson
      let executive_summary ←
        jlookup "executive_summary" fields >>= execSummaryFromJson
      let vulnerability_analysis ←
        jlookup "vulnerability_analysis" fields >>= vulnAnalysisFromJson
      let recommendations ←
        match jlookup "recommendations" fields with
        | some (.arr js) => decList recFromJson js
        | _ => none
      let technical_details ←
        jlookup "technical_details" fields >>= techFromJson
      let appendices ←
        match jlookup "appendices" fields with
        | some (.arr js) => decList appendixFromJson js
        | _ => none
      some ⟨metadata, executive_summary, vulnerability_analysis,
        recommendations, technical_details, appendices⟩
  | _ => none

/-! ## Lemmas about the count maps -/

theorem sumCounts_bump (m : List (String × Nat)) (k : String) :
    sumCounts (bump m k) = sumCounts m + 1 := by
  induction m with
  | nil => rfl
  | cons p rest ih =>
      obtain ⟨k', v⟩ := p
      by_cases h : k' = k <;> simp [bump, h, sumCounts] at ih ⊢ <;> omega

theorem sumCounts_foldl_bump (key : Vulnerability → String) :
    ∀ (l : List Vulnerability) (acc : List (String × Nat)),
      sumCounts (l.foldl (fun m v => bump m (key v)) acc) =
        sumCounts acc + l.length := by
  intro l
  induction l with
  | nil => intro acc; simp
  | cons v rest ih =>
      intro acc
      simp only [List.foldl_cons, List.length_cons, ih, sumCounts_bump]
      omega

theorem sumCounts_tally (key : Vulnerability → String)
    (l : List Vulnerability) : sumCounts (tally key l) = l.length := by
  simpa [tally, sumCounts] using sumCounts_foldl_bump key l []

theorem getCount_bump (m : List (String × Nat)) (k s : String) :
    getCount (bump m k) s = getCount m s + (if k = s then 1 else 0) := by
  induction m with
  | nil => by_cases h : k = s <;> simp [bump, getCount, h]
  | cons p rest ih =>
      obtain ⟨k', v⟩ := p
      by_cases h1 : k' = k
      · subst h1
        by_cases h2 : k' = s <;> simp [bump, getCount, h2]
      · by_cases h2 : k' = s
        · subst h2
          have : ¬ k = k' := fun h => h1 h.symm
          simp [bump, getCount, h1, this]
        · simp [bump, getCount, h1, h2, ih]

theorem getCount_foldl_bump (key : Vulnerability → String) :
    ∀ (l : List Vulnerability) (acc : List (String × Nat)) (s : String),
      getCount (l.foldl (fun m v => bump m (key v)) acc) s =
        getCount acc s + l.countP (fun v => key v == s) := by
  intro l
  induction l with
  | nil => intro acc s; simp
  | cons v rest ih =>
      intro acc s
      simp only [List.foldl_cons, ih, getCount_bump, List.countP_cons]
      by_cases h : key v = s
      all_goals simp [h]
      all_goals omega

theorem getCount_tally (key : Vulnerability → String)
    (l : List Vulnerability) (s : String) :
    getCount (tally key l) s = l.countP (fun v => key v == s) := by
  simpa [tally, getCount] using getCount_foldl_bump key l [] s

theorem countP_pos_iff_any (l : List Vulnerability)
    (p : Vulnerability → Bool) : 0 < l.countP p ↔ l.any p = true := by
  rw [List.countP_pos_iff, List.any_eq_true]

/-- C2.  For every finding sequence, the sums of the severity-distribution
counts, the category-breakdown counts and the tool-findings counts each
equal the sequence length: each finding increments exactly one entry in
each of the three mappings of the vulnerability analysis. -/
theorem aggregation_counts_total (vulns : List Vulnerability) :
    sumCounts (create_vulnerability_analysis vulns).severity_distribution =
        vulns.length ∧
    sumCounts (create_vulnerability_analysis vulns).category_breakdown =
        vulns.length ∧
    sumCounts (create_vulnerability_analysis vulns).tool_findings =
        vulns.length := by
  refine ⟨?_, ?_, ?_⟩ <;>
    simp [create_vulnerability_analysis, sumCounts_tally]

/-- C1.  The overall risk level of the executive summary follows the strict
precedence Critical, High, Medium, Low over the severities present in the
findings, and is Minimal when none of the four recognized severities
occurs (in particular for an empty sequence or one of only unrecognized
severities). -/
theorem overall_risk_level_precedence (results : AnalysisResults) :
    (create_executive_summary results
        (create_vulnerability_analysis results.vulnerabilities)
      ).overall_risk_level =
      (if results.vulnerabilities.any (fun v => v.severity == "Critical") then
        "Critical"
      else if results.vulnerabilities.any (fun v => v.severity == "High") then
        "High"
      else if results.vulnerabilities.any (fun v => v.severity == "Medium") then
        "Medium"
      else if results.vulnerabilities.any (fun v => v.severity == "Low") then
        "Low"
      else "Minimal") := by
  simp only [create_executive_summary, create_vulnerability_analysis,
    getCount_tally, gt_iff_lt]
  by_cases h1 : results.vulnerabilities.any (fun v => v.severity == "Critical") <;>
  by_cases h2 : results.vulnerabilities.any (fun v => v.severity == "High") <;>
  by_cases h3 : results.vulnerabilities.any (fun v => v.severity == "Medium") <;>
  by_cases h4 : results.vulnerabilities.any (fun v => v.severity == "Low") <;>
    simp_all [countP_pos_iff_any]

/-- C3.  The key-findings list is the titles of the first at most three
Critical findings (critical marker prefixed, input order) followed by the
titles of the first at most two High findings (high marker prefixed, input
order); when no Critical or High finding exists it is exactly the sentinel
entry, and its length never exceeds five. -/
theorem key_findings_spec (vulns : List Vulnerability) :
    extract_key_findings vulns =
      (if ∃ v ∈ vulns, v.severity = "Critical" ∨ v.severity = "High" then
        ((vulns.filter (fun v => v.severity == "Critical")).take 3).map
          (fun v => "🔴 Critical: " ++ v.title) ++
        ((vulns.filter (fun v => v.severity == "High")).take 2).map
          (fun v => "🟠 High: " ++ v.title)
      else ["No critical or high-severity vulnerabilities found."]) ∧
    (extract_key_findings vulns).length ≤ 5 := by
  constructor
  · by_cases h : ∃ v ∈ vulns, v.severity = "Critical" ∨ v.severity = "High"
    · rw [if_pos h]
      obtain ⟨v, hv, hsev⟩ := h
      have hne : ¬ (((vulns.filter (fun v => v.severity == "Critical")).take 3).map
            (fun v => "🔴 Critical: " ++ v.title) ++
          ((vulns.filter (fun v => v.severity == "High")).take 2).map
            (fun v => "🟠 High: " ++ v.title)).isEmpty := by
        rcases hsev with hs | hs
        · have : v ∈ vulns.filter (fun v => v.severity == "Critical") := by
            simp [List.mem_filter, hv, hs]
          rcases hl : vulns.filter (fun v => v.severity == "Critical") with
            _ | ⟨w, rest⟩
          · rw [hl] at this; simp at this
          · simp [hl]
        · have : v ∈ vulns.filter (fun v => v.severity == "High") := by
            simp [List.mem_filter, hv, hs]
          rcases hl : vulns.filter (fun v => v.severity == "High") with
            _ | ⟨w, rest⟩
          · rw [hl] at this; simp at this
          · simp [hl]
      simp only [extract_key_findings]
      rw [if_neg hne]
    · rw [if_neg h]
      push_neg at h
      have hc : vulns.filter (fun v => v.severity == "Critical") = [] := by
        rw [List.filter_eq_nil_iff]
        intro a ha
        simpa using fun hEq => (h a ha).1 hEq
      have hh : vulns.filter (fun v => v.severity == "High") = [] := by
        rw [List.filter_eq_nil_iff]
        intro a ha
        simpa using fun hEq => (h a ha).2 hEq
      simp [extract_key_findings, hc, hh]
  · simp only [extract_key_findings]
    by_cases he : (((vulns.filter (fun v => v.severity == "Critical")).take 3).map
          (fun v => "🔴 Critical: " ++ v.title) ++
        ((vulns.filter (fun v => v.severity == "High")).take 2).map
          (fun v => "🟠 High: " ++ v.title)).isEmpty
    · rw [if_pos he]; simp
    · rw [if_neg he]
      have h1 := List.length_take_le 3
        (vulns.filter (fun v => v.severity == "Critical"))
      have h2 := List.length_take_le 2
        (vulns.filter (fun v => v.severity == "High"))
      simp only [List.length_append, List.length_map]
      omega

/-! ## First-occurrence deduplication and the recommendation synthesizer -/

/-- First-occurrence deduplication with an accumulator of already seen
elements; `dedupFirstAux [] l` keeps exactly the first occurrence of each
element of `l`, in order. -/
def dedupFirstAux [DecidableEq α] : List α → List α → List α
  | _, [] => []
  | seen, a :: as =>
      if a ∈ seen then dedupFirstAux seen as
      else a :: dedupFirstAux (a :: seen) as

theorem mem_dedupFirstAux [DecidableEq α] (a : α) :
    ∀ (l seen : List α), a ∈ dedupFirstAux seen l ↔ a ∈ l ∧ a ∉ seen := by
  intro l
  induction l with
  | nil => intro seen; simp [dedupFirstAux]
  | cons b bs ih =>
      intro seen
      by_cases hb : b ∈ seen
      · rw [dedupFirstAux, if_pos hb, ih]
        simp only [List.mem_cons]
        constructor
        · rintro ⟨h1, h2⟩; exact ⟨Or.inr h1, h2⟩
        · rintro ⟨h1 | h1, h2⟩
          · exact absurd (h1 ▸ hb) h2
          · exact ⟨h1, h2⟩
      · rw [dedupFirstAux, if_neg hb]
        simp only [List.mem_cons, ih]
        constructor
        · rintro (rfl | ⟨h1, h2⟩)
          · exact ⟨Or.inl rfl, hb⟩
          · exact ⟨Or.inr h1, fun hc => h2 (Or.inr hc)⟩
        · rintro ⟨rfl | h1, h2⟩
          · exact Or.inl rfl
          · by_cases hab : a = b
            · exact Or.inl hab
            · refine Or.inr ⟨h1, fun hc => ?_⟩
              rcases hc with h | h
              · exact hab h
              · exact h2 h

theorem KeyFaithful_mono {L L' : List VulnerabilityCategory}
    (hsub : ∀ c ∈ L', c ∈ L) (h : KeyFaithful L) : KeyFaithful L' :=
  fun c hc d hd => h c (hsub c hc) d (hsub d hd)

theorem recCategoryLoop_eq_dedup (allVulns : List Vulnerability) :
    ∀ (vs : List Vulnerability) (seenC : List VulnerabilityCategory),
      KeyFaithful (vs.map (fun v => v.category) ++ seenC) →
      recCategoryLoop allVulns (seenC.map catKey) vs =
        (dedupFirstAux seenC (vs.map (fun v => v.category))).map
          (fun c => create_category_recommendation c allVulns) := by
  intro vs
  induction vs with
  | nil => intro seenC _; rfl
  | cons v rest ih =>
      intro seenC hKF
      have hmemL : v.category ∈
          (v :: rest).map (fun v => v.category) ++ seenC := by simp
      have hkey : catKey v.category ∈ seenC.map catKey ↔ v.category ∈ seenC := by
        constructor
        · intro hm
          obtain ⟨c, hc, hkc⟩ := List.mem_map.mp hm
          have := hKF v.category hmemL c (by simp [List.mem_append, hc]) hkc.symm
          exact this ▸ hc
        · intro hm; exact List.mem_map_of_mem _ hm
      by_cases hm : v.category ∈ seenC
      · have hk : catKey v.category ∈ seenC.map catKey := hkey.mpr hm
        simp only [recCategoryLoop, if_pos hk, List.map_cons, dedupFirstAux,
          if_pos hm]
        refine ih seenC (KeyFaithful_mono ?_ hKF)
        intro c hc
        simp only [List.map_cons, List.cons_append, List.mem_cons,
          List.mem_append] at hc ⊢
        tauto
      · have hk : catKey v.category ∉ seenC.map catKey := fun hc => hm (hkey.mp hc)
        simp only [recCategoryLoop, if_neg hk, List.map_cons, dedupFirstAux,
          if_neg hm, List.map_cons]
        have hrec : (catKey v.category :: seenC.map catKey) =
            (v.category :: seenC).map catKey := by simp
        rw [hrec, ih (v.category :: seenC) (KeyFaithful_mono ?_ hKF)]
        intro c hc
        simp only [List.map_cons, List.cons_append, List.mem_cons,
          List.mem_append] at hc ⊢
        tauto

/-- C4.  Under key-faithful categories (always true of the Rust `Debug`
keys), the synthesized recommendation list is exactly one category
recommendation per distinct category present, in first-occurrence order,
each listing the identifiers of every finding of that category in input
order, followed by one general recommendation per free-text string in
input order with empty related findings and Medium priority, effort and
impact. -/
theorem recommendations_spec (vulns : List Vulnerability)
    (gens : List String)
    (h : KeyFaithful (vulns.map (fun v => v.category))) :
    create_recommendations vulns gens =
      (dedupFirstAux [] (vulns.map (fun v => v.category))).map
        (fun c => create_category_recommendation c vulns) ++
      gens.enum.map (fun p =>
        { id := "REC-" ++ pad3 (p.1 + 100)
          title := "General Recommendation " ++ toString (p.1 + 1)
          description := p.2
          priority := "Medium", effort := "Medium", impact := "Medium"
          related_vulnerabilities := [] }) ∧
    ∀ c, (create_category_recommendation c vulns).related_vulnerabilities =
      (vulns.filter (fun v => v.category == c)).map (fun v => v.id) := by
  constructor
  · have h0 : KeyFaithful (vulns.map (fun v => v.category) ++ []) := by
      simpa using h
    have := recCategoryLoop_eq_dedup vulns vulns [] h0
    simp only [List.map_nil] at this
    simp only [create_recommendations, this]
  · intro c
    cases c <;> rfl

/-- Convenience constructor for concrete findings used in witnesses. -/
def mkVuln (i t : String) (c : VulnerabilityCategory) (s : String) :
    Vulnerability :=
  { id := i, title := t, description := "d", category := c, severity := s
    confidence := 1/2, tool := "slither", file_path := "a.sol"
    line_number := some 7, code_snippet := none, recommendation := none
    references := [] }

/-- Concrete finding list with a repeated category, a second category and a
category outside the fixed table. -/
def witnessVulns : List Vulnerability :=
  [ mkVuln "V-1" "Reentrant withdraw" .Reentrancy "Critical"
  , mkVuln "V-2" "Unchecked call" .UnhandledExceptions "High"
  , mkVuln "V-3" "Reentrant claim" .Reentrancy "High"
  , mkVuln "V-4" "Oracle skew" (.Other "OracleManipulation") "Medium" ]

/-- Witness for C4 at a concrete input with a duplicate category. -/
theorem recommendations_spec_witness :
    KeyFaithful (witnessVulns.map (fun v => v.category)) ∧
    (create_recommendations witnessVulns ["Enable CI fuzzing"] =
      (dedupFirstAux [] (witnessVulns.map (fun v => v.category))).map
        (fun c => create_category_recommendation c witnessVulns) ++
      (["Enable CI fuzzing"] : List String).enum.map (fun p =>
        { id := "REC-" ++ pad3 (p.1 + 100)
          title := "General Recommendation " ++ toString (p.1 + 1)
          description := p.2
          priority := "Medium", effort := "Medium", impact := "Medium"
          related_vulnerabilities := [] }) ∧
    ∀ c, (create_category_recommendation c witnessVulns).related_vulnerabilities =
      (witnessVulns.filter (fun v => v.category == c)).map (fun v => v.id)) :=
  ⟨by decide, recommendations_spec witnessVulns ["Enable CI fuzzing"] (by decide)⟩

theorem addressTitle_inj (a b : String)
    (h : "Address " ++ a ++ " Issues" = "Address " ++ b ++ " Issues") :
    a = b := by
  have h2 := congrArg String.data h
  simp only [String.data_append, List.append_assoc] at h2
  exact String.ext (List.append_cancel_right (List.append_cancel_left h2))

/-- C10.  Recommendation identifiers are not unique: with key-faithful
categories, any finding sequence containing two distinct categories outside
the fixed four-entry table yields two distinct recommendations that both
carry the identifier REC-999. -/
theorem rec999_not_unique (vulns : List Vulnerability) (gens : List String)
    (hfaith : KeyFaithful (vulns.map (fun v => v.category)))
    (htwo : ∃ v ∈ vulns, ∃ w ∈ vulns,
      (∃ a, v.category = .Other a) ∧ (∃ b, w.category = .Other b) ∧
        v.category ≠ w.category) :
    ∃ r1 ∈ create_recommendations vulns gens,
      ∃ r2 ∈ create_recommendations vulns gens,
        r1 ≠ r2 ∧ r1.id = "REC-999" ∧ r2.id = "REC-999" := by
  obtain ⟨v, hv, w, hw, ⟨a, hva⟩, ⟨b, hwb⟩, hne⟩ := htwo
  have h0 : KeyFaithful (vulns.map (fun v => v.category) ++ []) := by
    simpa using hfaith
  have hrw := recCategoryLoop_eq_dedup vulns vulns [] h0
  simp only [List.map_nil] at hrw
  have hvd : v.category ∈ dedupFirstAux [] (vulns.map (fun v => v.category)) :=
    (mem_dedupFirstAux _ _ _).mpr ⟨List.mem_map_of_mem _ hv, by simp⟩
  have hwd : w.category ∈ dedupFirstAux [] (vulns.map (fun v => v.category)) :=
    (mem_dedupFirstAux _ _ _).mpr ⟨List.mem_map_of_mem _ hw, by simp⟩
  refine ⟨create_category_recommendation v.category vulns, ?_,
    create_category_recommendation w.category vulns, ?_, ?_, ?_, ?_⟩
  · simp only [create_recommendations, hrw]
    exact List.mem_append_left _ (List.mem_map_of_mem _ hvd)
  · simp only [create_recommendations, hrw]
    exact List.mem_append_left _ (List.mem_map_of_mem _ hwd)
  · intro heq
    rw [hva, hwb] at heq
    have htitle := congrArg Recommendation.title heq
    have ha : (create_category_recommendation (.Other a) vulns).title =
        "Address " ++ a ++ " Issues" := rfl
    have hb : (create_category_recommendation (.Other b) vulns).title =
        "Address " ++ b ++ " Issues" := rfl
    rw [ha, hb] at htitle
    exact hne (by rw [hva, hwb, addressTitle_inj a b htitle])
  · rw [hva]; rfl
  · rw [hwb]; rfl

/-- Concrete finding with a first category outside the fixed table. -/
def wOther1 : Vulnerability :=
  mkVuln "V-10" "Oracle skew" (.Other "OracleManipulation") "Medium"

/-- Concrete finding with a second category outside the fixed table. -/
def wOther2 : Vulnerability :=
  mkVuln "V-11" "Griefing vector" (.Other "DenialOfService") "Low"

/-- Concrete finding list holding two distinct categories outside the fixed
table. -/
def witnessVulnsOther : List Vulnerability := [wOther1, wOther2]

/-- Witness for C10 at a concrete input with two non-table categories. -/
theorem rec999_not_unique_witness :
    KeyFaithful (witnessVulnsOther.map (fun v => v.category)) ∧
    (∃ v ∈ witnessVulnsOther, ∃ w ∈ witnessVulnsOther,
      (∃ a, v.category = .Other a) ∧ (∃ b, w.category = .Other b) ∧
        v.category ≠ w.category) ∧
    (∃ r1 ∈ create_recommendations witnessVulnsOther [],
      ∃ r2 ∈ create_recommendations witnessVulnsOther [],
        r1 ≠ r2 ∧ r1.id = "REC-999" ∧ r2.id = "REC-999") :=
  ⟨by decide,
    ⟨wOther1, List.Mem.head _, wOther2, List.Mem.tail _ (List.Mem.head _),
      ⟨"OracleManipulation", rfl⟩, ⟨"DenialOfService", rfl⟩, by decide⟩,
    rec999_not_unique witnessVulnsOther [] (by decide)
      ⟨wOther1, List.Mem.head _, wOther2, List.Mem.tail _ (List.Mem.head _),
        ⟨"OracleManipulation", rfl⟩, ⟨"DenialOfService", rfl⟩, by decide⟩⟩

/-- C5.  Every format selector outside markdown, html, json, pdf makes
report generation fail with an error whose message contains the requested
format value, and never yields a successful artifact. -/
theorem unsupported_format_fails (results : AnalysisResults)
    (format : String) (include_summary : Bool) (reportId nowTs : String)
    (h : format ∉ (["markdown", "html", "json", "pdf"] : List String)) :
    (∃ pre suf,
      generate_comprehensive_report results format include_summary
          reportId nowTs = Except.error (pre ++ format ++ suf)) ∧
    ∀ out, generate_comprehensive_report results format include_summary
        reportId nowTs ≠ Except.ok out := by
  constructor
  · refine ⟨"Unsupported report format: ", "", ?_⟩
    unfold generate_comprehensive_report
    split <;> simp_all
  · intro out
    unfold generate_comprehensive_report
    split <;> simp_all

/-- Concrete analysis input for witnesses. -/
def sampleResults : AnalysisResults :=
  { contract_name := "Vault"
    vulnerabilities := witnessVulns
    recommendations := ["Enable CI fuzzing", "Pin compiler version"]
    metrics :=
      { lines_of_code := 420, functions_analyzed := 17
        complexity_score := 3/2, security_score := 72 }
    analysis_summary := { tools_used := ["slither", "mythril"]
                          analysis_duration := 12 } }

/-- Witness for C5 at the unrecognized selector xml. -/
theorem unsupported_format_fails_witness :
    ("xml" ∉ (["markdown", "html", "json", "pdf"] : List String)) ∧
    ((∃ pre suf,
      generate_comprehensive_report sampleResults "xml" true "RID-1"
          "2026-01-01T00:00:00Z" = Except.error (pre ++ "xml" ++ suf)) ∧
    ∀ out, generate_comprehensive_report sampleResults "xml" true "RID-1"
        "2026-01-01T00:00:00Z" ≠ Except.ok out) :=
  ⟨by decide,
    unsupported_format_fails sampleResults "xml" true "RID-1"
      "2026-01-01T00:00:00Z" (by decide)⟩

/-- C6.  The aggregation keys the severity distribution by the severity
string verbatim (the count under any key equals the number of findings
whose severity is exactly that string), the rendering collapses every
finding whose severity is none of Critical, High, Medium, Low into the
Informational display group in input order, and a severity group with no
findings renders nothing. -/
theorem severity_verbatim_and_display :
    (∀ (vulns : List Vulnerability) (s : String),
      getCount (create_vulnerability_analysis vulns).severity_distribution s =
        (vulns.filter (fun v => v.severity == s)).length) ∧
    (∀ vulns : List Vulnerability,
      (splitBySeverity vulns).informational =
        vulns.filter (fun v =>
          !(v.severity == "Critical" || v.severity == "High" ||
            v.severity == "Medium" || v.severity == "Low"))) ∧
    (∀ (markdown severity icon : String),
      add_vulnerability_section markdown severity [] icon = markdown) := by
  refine ⟨?_, ?_, ?_⟩
  · intro vulns s
    rw [create_vulnerability_analysis, getCount_tally,
      List.countP_eq_length_filter]
  · intro vulns
    induction vulns with
    | nil => rfl
    | cons v rest ih =>
        by_cases h1 : v.severity = "Critical"
        · simp [splitBySeverity, h1, ih]
        · by_cases h2 : v.severity = "High"
          · simp [splitBySeverity, h2, ih]
          · by_cases h3 : v.severity = "Medium"
            · simp [splitBySeverity, h3, ih]
            · by_cases h4 : v.severity = "Low"
              · simp [splitBySeverity, h4, ih]
              · rw [splitBySeverity]
                split <;> simp_all
  · intro markdown severity icon
    rfl

/-- Modelled from the spec: the escaping step the spec prescribes for
embedding the canonical rendering into the hypertext shell, the minimal
ampersand and angle-bracket escaping of text placed in an HTML element. -/
def specEscapeHtml (s : String) : String :=
  replaceChar '>' "&gt;"
    (replaceChar '<' "&lt;" (replaceChar '&' "&amp;" s))

/-- Concrete assembled report whose contract name forces escaping. -/
def escReport : ComprehensiveReport :=
  { metadata :=
      { report_id := "R", generated_at := "2026-01-01T00:00:00Z"
        version := "0.1.0", contract_name := "Vault<T>"
        analysis_tools := [], report_type := "Security Audit Report" }
    executive_summary :=
      { overall_risk_level := "Minimal", total_vulnerabilities := 0
        critical_findings := 0, high_risk_findings := 0
        medium_risk_findings := 0, low_risk_findings := 0
        security_score := 100, key_findings := []
        recommendations_summary := [] }
    vulnerability_analysis :=
      { vulnerabilities := [], category_breakdown := []
        severity_distribution := [], tool_findings := [] }
    recommendations := []
    technical_details :=
      { analysis_metrics :=
          { lines_of_code := 0, functions_analyzed := 0
            complexity_score := 0, security_score := 100 }
        coverage_report :=
          { lines_analyzed := 0, functions_analyzed := 0
            coverage_percentage := 85, uncovered_areas := [] }
        tool_configurations := [], analysis_duration := 0 }
    appendices := [] }

set_option maxRecDepth 8192 in
/-- Counterexample to C7 as stated: the hypertext rendering embeds the
canonical rendering verbatim, not escaped; at a report whose canonical
rendering contains markup characters the escaped embedding differs from
the produced output. -/
theorem html_not_escaped_counterexample :
    generate_html_report escReport =
      htmlShell escReport.metadata.contract_name
        (generate_markdown_report escReport) ∧
    specEscapeHtml (generate_markdown_report escReport) ≠
      generate_markdown_report escReport ∧
    generate_html_report escReport ≠
      htmlShell escReport.metadata.contract_name
        (specEscapeHtml (generate_markdown_report escReport)) :=
  ⟨rfl, by decide, by decide⟩

/-- C7 amended.  The hypertext rendering equals the canonical
structured-text rendering embedded verbatim (unescaped) inside the fixed
styled document shell titled by the contract name, and the PDF-target
rendering equals the hypertext rendering unchanged. -/
theorem html_wraps_markdown_pdf_is_html (report : ComprehensiveReport) :
    generate_html_report report =
      htmlShell report.metadata.contract_name
        (generate_markdown_report report) ∧
    generate_pdf_report report = generate_html_report report :=
  ⟨rfl, rfl⟩

/-- C8.  When summary computation is opted out, the assembled report
carries the placeholder executive summary: risk level Not Calculated, all
per-severity counts zero, the security score copied from the input
metrics, and empty key-findings and recommendations-summary lists. -/
theorem summary_disabled_placeholder (results : AnalysisResults)
    (reportId nowTs : String) :
    (create_comprehensive_report results false reportId nowTs
      ).executive_summary =
      { overall_risk_level := "Not Calculated"
        total_vulnerabilities := results.vulnerabilities.length
        critical_findings := 0, high_risk_findings := 0
        medium_risk_findings := 0, low_risk_findings := 0
        security_score := results.metrics.security_score
        key_findings := [], recommendations_summary := [] } := rfl

/-! ## Round trip of the machine-readable serialization -/

/-- Holds when a category is either one of the four table variants or a
further variant whose `Debug` label is not one of the four table names;
true of every category of the Rust program, where variant names are
unique. -/
def catLabelOk : VulnerabilityCategory → Bool
  | .Other l =>
      !(l == "Reentrancy" || l == "AccessControl" ||
        l == "IntegerOverflow" || l == "UnhandledExceptions")
  | _ => true

theorem asNat_enc (n : Nat) : asNat (Json.num n) = some n := by
  simp [asNat]

theorem decList_asStr (l : List String) :
    decList asStr (l.map Json.str) = some l := by
  induction l with
  | nil => rfl
  | cons a as ih => simp [decList, asStr, ih]

theorem asStrList_enc (l : List String) : asStrList (encStrList l) = some l := by
  simp [asStrList, encStrList, decList_asStr]

theorem asOptNat_enc (o : Option Nat) : asOptNat (encOptNat o) = some o := by
  cases o with
  | none => rfl
  | some n => simp [asOptNat, encOptNat, asNat]

theorem asOptStr_enc (o : Option String) : asOptStr (encOptStr o) = some o := by
  cases o <;> rfl

theorem decCountEntries_enc (m : List (String × Nat)) :
    decCountEntries (m.map (fun p => (p.1, Json.num p.2))) = some m := by
  induction m with
  | nil => rfl
  | cons p rest ih =>
      obtain ⟨k, v⟩ := p
      simp [decCountEntries, asNat_enc, ih]

theorem asCountMap_enc (m : List (String × Nat)) :
    asCountMap (encCountMap m) = some m := by
  simp [asCountMap, encCountMap, decCountEntries_enc]

theorem decStrEntries_enc (m : List (String × String)) :
    decStrEntries (m.map (fun p => (p.1, Json.str p.2))) = some m := by
  induction m with
  | nil => rfl
  | cons p rest ih =>
      obtain ⟨k, v⟩ := p
      simp [decStrEntries, asStr, ih]

theorem asStrMap_enc (m : List (String × String)) :
    asStrMap (encStrMap m) = some m := by
  simp [asStrMap, encStrMap, decStrEntries_enc]

theorem catFromJson_enc (c : VulnerabilityCategory)
    (h : catLabelOk c = true) : catFromJson (catToJson c) = some c := by
  cases c with
  | Other l =>
      simp only [catLabelOk, Bool.not_eq_true', Bool.or_eq_false_iff,
        beq_eq_false_iff_ne, ne_eq] at h
      obtain ⟨⟨⟨h1, h2⟩, h3⟩, h4⟩ := h
      simp [catToJson, catFromJson, catKey, h1, h2, h3, h4]
  | Reentrancy => decide
  | AccessControl => decide
  | IntegerOverflow => decide
  | UnhandledExceptions => decide

theorem vulnFromJson_enc (v : Vulnerability)
    (h : catLabelOk v.category = true) :
    vulnFromJson (vulnToJson v) = some v := by
  obtain ⟨i, t, d, c, s, cf, tl, fp, ln, cs, rc, rf⟩ := v
  simp only at h
  simp [vulnToJson, vulnFromJson, jlookup, asStr, asNum,
    catFromJson_enc c h, asOptNat_enc, asOptStr_enc, asStrList_enc]

theorem decList_vuln (l : List Vulnerability)
    (h : ∀ v ∈ l, catLabelOk v.category = true) :
    decList vulnFromJson (l.map vulnToJson) = some l := by
  induction l with
  | nil => rfl
  | cons v rest ih =>
      have hv : catLabelOk v.category = true := h v (List.Mem.head _)
      have hrest : ∀ w ∈ rest, catLabelOk w.category = true :=
        fun w hw => h w (List.Mem.tail _ hw)
      simp [decList, vulnFromJson_enc v hv, ih hrest]

theorem metadataFromJson_enc (m : ReportMetadata) :
    metadataFromJson (metadataToJson m) = some m := by
  obtain ⟨a, b, c, d, e, f⟩ := m
  simp [metadataToJson, metadataFromJson, jlookup, asStr, asStrList_enc]

theorem execSummaryFromJson_enc (e : ExecutiveSummary) :
    execSummaryFromJson (execSummaryToJson e) = some e := by
  obtain ⟨a, b, c, d, f, g, h, i, j⟩ := e
  simp [execSummaryToJson, execSummaryFromJson, jlookup, asStr, asNum,
    asNat_enc, asStrList_enc]

theorem vulnAnalysisFromJson_enc (va : VulnerabilityAnalysis)
    (h : ∀ v ∈ va.vulnerabilities, catLabelOk v.category = true) :
    vulnAnalysisFromJson (vulnAnalysisToJson va) = some va := by
  obtain ⟨vs, cb, sd, tf⟩ := va
  simp only at h
  simp [vulnAnalysisToJson, vulnAnalysisFromJson, jlookup,
    decList_vuln vs h, asCountMap_enc]

theorem recFromJson_enc (r : Recommendation) :
    recFromJson (recToJson r) = some r := by
  obtain ⟨a, b, c, d, e, f, g⟩ := r
  simp [recToJson, recFromJson, jlookup, asStr, asStrList_enc]

theorem decList_rec (l : List Recommendation) :
    decList recFromJson (l.map recToJson) = some l := by
  induction l with
  | nil => rfl
  | cons r rest ih => simp [decList, recFromJson_enc, ih]

theorem metricsFromJson_enc (m : AnalysisMetrics) :
    metricsFromJson (metricsToJson m) = some m := by
  obtain ⟨a, b, c, d⟩ := m
  simp [metricsToJson, metricsFromJson, jlookup, asNum, asNat_enc]

theorem coverageFromJson_enc (c : CoverageReport) :
    coverageFromJson (coverageToJson c) = some c := by
  obtain ⟨a, b, d, e⟩ := c
  simp [coverageToJson, coverageFromJson, jlookup, asNum, asNat_enc,
    asStrList_enc]

theorem techFromJson_enc (t : TechnicalDetails) :
    techFromJson (techToJson t) = some t := by
  obtain ⟨a, b, c, d⟩ := t
  simp [techToJson, techFromJson, jlookup, asNum, metricsFromJson_enc,
    coverageFromJson_enc, asStrMap_enc]

theorem appendixFromJson_enc (a : Appendix) :
    appendixFromJson (appendixToJson a) = some a := by
  obtain ⟨x, y, z⟩ := a
  simp [appendixToJson, appendixFromJson, jlookup, asStr]

theorem decList_appendix (l : List Appendix) :
    decList appendixFromJson (l.map appendixToJson) = some l := by
  induction l with
  | nil => rfl
  | cons a rest ih => simp [decList, appendixFromJson_enc, ih]

/-- C9.  The machine-readable rendering serializes every field of the
assembled report and deserializing it reconstructs a structurally equal
document (under label-faithful categories, true of every Rust program
value); the rendered JSON text is the direct rendering of that full
serialization. -/
theorem json_rendering_roundtrip (r : ComprehensiveReport)
    (h : ∀ v ∈ r.vulnerability_analysis.vulnerabilities,
      catLabelOk v.category = true) :
    reportFromJson (reportToJson r) = some r ∧
    generate_json_report r = jsonRender (reportToJson r) := by
  refine ⟨?_, rfl⟩
  obtain ⟨md, es, va, recs, td, apps⟩ := r
  simp only at h
  simp [reportToJson, reportFromJson, jlookup, metadataFromJson_enc,
    execSummaryFromJson_enc, vulnAnalysisFromJson_enc va h,
    decList_rec, techFromJson_enc, decList_appendix]

/-- Concrete assembled report for the C9 witness. -/
def sampleReport : ComprehensiveReport :=
  create_comprehensive_report sampleResults true "RID-1" "2026-01-01T00:00:00Z"

/-- Witness for C9 at a concrete assembled report. -/
theorem json_rendering_roundtrip_witness :
    (∀ v ∈ sampleReport.vulnerability_analysis.vulnerabilities,
      catLabelOk v.category = true) ∧
    (reportFromJson (reportToJson sampleReport) = some sampleReport ∧
      generate_json_report sampleReport = jsonRender (reportToJson sampleReport)) :=
  ⟨by decide, json_rendering_roundtrip sampleReport (by decide)⟩
